import Mathlib

/-!
Shallow embedding of `src/glados/llama.py` (the llama.cpp server supervisor):
the `LlamaServer` handle with its launch command, `start`, `stop` and the
`is_running` readiness polling loop, and `LlamaServerConfig.from_yaml`.

Conventions of the embedding:
* The health endpoint is an environment `env : ℚ → PollOutcome` mapping the
  elapsed time (in seconds, accumulated from the loop's own sleeps) at which
  a `requests.get` is issued to its outcome: a `ConnectionError` or an HTTP
  status code.
* The `while True` loop of `is_running` is embedded with explicit fuel; a
  return of `none` means the fuel ran out (the real loop would still be
  iterating), `some (b, tr)` means the Python function returned `b`, with
  `tr` recording how many HTTP requests and sleeps of each kind were made.
* Python exceptions that escape a method are an explicit error channel
  (`PyError`): `AttributeError` for attribute access on `None`/non-dicts,
  `TypeError` for bad keyword arguments to the dataclass constructor.
* `float` parameters (`sleep_time_between_attempts`,
  `max_wait_time_for_model_loading`) are modelled as `ℚ`; the only
  operations performed on them in the source are comparison with integers
  and addition, which `ℚ` models exactly at the values in play.
-/

/-- Outcome of one `requests.get(self.health_check_url)` call: either the
connection is refused (`requests.exceptions.ConnectionError`) or an HTTP
response with the given status code arrives. -/
inductive PollOutcome : Type
  | connectionRefused : PollOutcome
  | status (code : ℕ) : PollOutcome
deriving DecidableEq

/-- Observable trace of one `is_running` call: how many HTTP requests were
issued (`polls`), how many of them ended in each way, and how many sleeps of
each kind (`time.sleep(sleep_time_between_attempts)` vs the 1-second
`time.sleep(model_loading_log_time)`) were executed. -/
structure PollTrace : Type where
  polls : ℕ
  refusedPolls : ℕ
  loadingPolls : ℕ
  betweenSleeps : ℕ
  loadingSleeps : ℕ
deriving DecidableEq

/-- The trace at the start of an `is_running` call: nothing has happened. -/
def PollTrace.empty : PollTrace := ⟨0, 0, 0, 0, 0⟩

/-- The `while True:` loop body of `LlamaServer.is_running`
(src/glados/llama.py lines 111-149), embedded with explicit fuel.
State: `ca` is `cur_attempt`, `lt` is `model_loading_time`, `t` is the
elapsed time (determining the next poll's outcome via `env`), `tr` the
trace so far.  `model_loading_log_time` is the constant 1.
The 503 branch ends in `continue`, so it does NOT execute the
`time.sleep(sleep_time_between_attempts)` at the bottom of the loop; the
connection-refused branch falls through to it. -/
def isRunningLoop (env : ℚ → PollOutcome) (maxConn : ℕ) (sb mw : ℚ) :
    ℕ → ℕ → ℚ → PollTrace → ℕ → Option (Bool × PollTrace)
  | _, _, _, _, 0 => none
  | ca, lt, t, tr, fuel + 1 =>
    match env t with
    | PollOutcome.status code =>
      if code = 503 then
        let tr1 : PollTrace :=
          { tr with polls := tr.polls + 1, loadingPolls := tr.loadingPolls + 1 }
        if mw < (lt : ℚ) then
          some (false, tr1)
        else
          isRunningLoop env maxConn sb mw ca (lt + 1) (t + 1)
            { tr1 with loadingSleeps := tr1.loadingSleeps + 1 } fuel
      else if code = 200 then
        some (true, { tr with polls := tr.polls + 1 })
      else
        some (false, { tr with polls := tr.polls + 1 })
    | PollOutcome.connectionRefused =>
      let tr1 : PollTrace :=
        { tr with polls := tr.polls + 1, refusedPolls := tr.refusedPolls + 1 }
      if maxConn < ca + 1 then
        some (false, tr1)
      else
        isRunningLoop env maxConn sb mw (ca + 1) lt (t + sb)
          { tr1 with betweenSleeps := tr1.betweenSleeps + 1 } fuel

/-- `LlamaServer.is_running` (src/glados/llama.py lines 99-149): returns
`False` at once if `self.process is None`, otherwise runs the polling loop
with `cur_attempt = 0`, `model_loading_time = 0` at elapsed time 0. -/
def is_running (process : Option ℕ) (env : ℚ → PollOutcome) (maxConn : ℕ)
    (sb mw : ℚ) (fuel : ℕ) : Option (Bool × PollTrace) :=
  match process with
  | none => some (false, PollTrace.empty)
  | some _ => isRunningLoop env maxConn sb mw 0 0 0 PollTrace.empty fuel

/-- The mutable `LlamaServer` handle (src/glados/llama.py lines 42-60):
`process` holds the PID of the owned subprocess, `command` the launch
argument list computed once in `__init__`. -/
structure LlamaServer : Type where
  llama_cpp_repo_path : String
  model_path : String
  port : ℕ
  process : Option ℕ
  use_gpu : Bool
  command : List String
deriving DecidableEq

/-- `LlamaServer.__init__` (src/glados/llama.py lines 43-60): stores the
fields, sets `process = None` and computes
`command = [repo, "-m"] + [model]` plus `["-ngl", "1000"]` when
`use_gpu`. -/
def LlamaServer.init (repo model : String) (port : ℕ) (use_gpu : Bool) :
    LlamaServer :=
  { llama_cpp_repo_path := repo
    model_path := model
    port := port
    process := none
    use_gpu := use_gpu
    command :=
      ([repo, "-m"] ++ [model]) ++ (if use_gpu then ["-ngl", "1000"] else []) }

/-- The startup descriptor of the spec: the four parameters `__init__`
receives. -/
structure StartupDescriptor : Type where
  executablePath : String
  modelPath : String
  port : ℕ
  useGpu : Bool
deriving DecidableEq

/-- The launch command as a function of the descriptor: the `command`
field `__init__` computes from these four parameters. -/
def buildCommand (d : StartupDescriptor) : List String :=
  (LlamaServer.init d.executablePath d.modelPath d.port d.useGpu).command

/-- A Python exception escaping one of the embedded methods. -/
inductive PyError : Type
  | attributeError : PyError
  | typeError : PyError
deriving DecidableEq

/-- `LlamaServer.stop` (src/glados/llama.py lines 151-154): executes
`self.process.terminate()` unconditionally — when `self.process is None`
this is attribute access on `None` and raises `AttributeError`; otherwise
the process is terminated, waited for, and `self.process` set to `None`. -/
def LlamaServer.stop (s : LlamaServer) : Except PyError LlamaServer :=
  match s.process with
  | none => Except.error PyError.attributeError
  | some _ => Except.ok { s with process := none }

/-- Result of `LlamaServer.start`: normal return, a raised
`ServerStartupError`, or another Python exception propagating; in each
case paired with the handle's state at that moment. -/
inductive StartOutcome : Type
  | ok (s : LlamaServer) : StartOutcome
  | serverStartupError (s : LlamaServer) : StartOutcome
  | pyError (s : LlamaServer) (e : PyError) : StartOutcome
deriving DecidableEq

/-- `LlamaServer.start` (src/glados/llama.py lines 87-97): spawns the
subprocess (here: a fresh `pid` is installed in `self.process`), then calls
`self.is_running()` with its default bounds
(`max_connection_attempts=10`, `sleep_time_between_attempts=0.01`,
`max_wait_time_for_model_loading=60.0`); when that returns `False` it calls
`self.stop()` and raises `ServerStartupError`. -/
def LlamaServer.start (s : LlamaServer) (pid : ℕ) (env : ℚ → PollOutcome)
    (fuel : ℕ) : Option StartOutcome :=
  match is_running (some pid) env 10 (1 / 100) 60 fuel with
  | none => none
  | some (true, _) => some (StartOutcome.ok { s with process := some pid })
  | some (false, _) =>
    match ({ s with process := some pid } : LlamaServer).stop with
    | Except.ok s2 => some (StartOutcome.serverStartupError s2)
    | Except.error e =>
      some (StartOutcome.pyError { s with process := some pid } e)

/-- A parsed YAML value as `yaml.safe_load` produces it. -/
inductive Yaml : Type
  | str (s : String) : Yaml
  | int (n : ℤ) : Yaml
  | bool (b : Bool) : Yaml
  | null : Yaml
  | map (entries : List (String × Yaml)) : Yaml

/-- Python truthiness (`if not config`) for the values above: `None`,
`False`, `0`, `""` and `{}` are falsy. -/
def Yaml.truthy : Yaml → Bool
  | Yaml.str s => !(s = "")
  | Yaml.int n => !(n = 0)
  | Yaml.bool b => b
  | Yaml.null => false
  | Yaml.map es => !es.isEmpty

/-- One step `config = config.get(nested_key, {})`
(src/glados/llama.py line 35): defined on dicts, returning `{}` for a
missing key; on any non-dict value attribute access `.get` raises
`AttributeError`. -/
def Yaml.get (y : Yaml) (k : String) : Except PyError Yaml :=
  match y with
  | Yaml.map es => Except.ok ((es.lookup k).getD (Yaml.map []))
  | _ => Except.error PyError.attributeError

/-- The descent loop `for nested_key in key_to_config: config =
config.get(nested_key, {})` (src/glados/llama.py lines 34-35). -/
def Yaml.descend : Yaml → List String → Except PyError Yaml
  | y, [] => Except.ok y
  | y, k :: ks =>
    match y.get k with
    | Except.error e => Except.error e
    | Except.ok y1 => Yaml.descend y1 ks

/-- The `LlamaServerConfig` dataclass (src/glados/llama.py lines 18-23).
Python dataclasses do not check field types at runtime, so every field
holds whatever `Yaml` value was passed; `port` and `use_gpu` carry the
declared defaults `8080` and `True`. -/
structure LlamaServerConfig : Type where
  llama_cpp_repo_path : Yaml
  model_path : Yaml
  port : Yaml
  use_gpu : Yaml

/-- The keyword names `LlamaServerConfig.__init__` accepts. -/
def llamaConfigFields : List String :=
  ["llama_cpp_repo_path", "model_path", "port", "use_gpu"]

/-- The call `cls(**config)` (src/glados/llama.py line 39) on a dict of
keyword arguments: an unexpected keyword or a missing required field
(`llama_cpp_repo_path`, `model_path`) raises `TypeError`; otherwise the
dataclass is constructed, with the declared defaults for absent `port`
and `use_gpu`.  No field value is type-checked. -/
def mkLlamaServerConfig (kw : List (String × Yaml)) :
    Except PyError LlamaServerConfig :=
  if kw.any (fun p => !(llamaConfigFields.contains p.1)) then
    Except.error PyError.typeError
  else
    match kw.lookup "llama_cpp_repo_path", kw.lookup "model_path" with
    | some r, some m =>
      Except.ok
        { llama_cpp_repo_path := r
          model_path := m
          port := (kw.lookup "port").getD (Yaml.int 8080)
          use_gpu := (kw.lookup "use_gpu").getD (Yaml.bool true) }
    | _, _ => Except.error PyError.typeError

/-- `LlamaServerConfig.from_yaml` (src/glados/llama.py lines 25-39) after
the file has been parsed into `data`: descend by `key_to_config`; when the
final value is falsy return `None`; otherwise build the dataclass via
`cls(**config)` (which needs `config` to be a dict: `**` of a non-mapping
raises `TypeError`). -/
def from_yaml (data : Yaml) (key_to_config : List String) :
    Except PyError (Option LlamaServerConfig) :=
  match Yaml.descend data key_to_config with
  | Except.error e => Except.error e
  | Except.ok c =>
    if c.truthy then
      match c with
      | Yaml.map es =>
        match mkLlamaServerConfig es with
        | Except.error e => Except.error e
        | Except.ok cfg => Except.ok (some cfg)
      | _ => Except.error PyError.typeError
    else
      Except.ok none

/-- A health endpoint that answers 503 during the first `n` whole seconds
of polling and 200 thereafter. -/
def env503 (n : ℕ) : ℚ → PollOutcome := fun t =>
  if t < (n : ℚ) then PollOutcome.status 503 else PollOutcome.status 200

/-- A health endpoint that never accepts the connection. -/
def envRefused : ℚ → PollOutcome := fun _ => PollOutcome.connectionRefused

/-- Every value met while descending `keys` from `y` (before the last key
is consumed) is a dict, so each `.get` succeeds. -/
def Yaml.mapsAlong : Yaml → List String → Bool
  | _, [] => true
  | y, k :: ks =>
    match y with
    | Yaml.map es => Yaml.mapsAlong ((es.lookup k).getD (Yaml.map [])) ks
    | _ => false

/-! ## One-step unfolding lemmas for the polling loop -/

/-- A connection-refused poll that exhausts the attempt budget: the counter
is incremented and, being above `maxConn`, the loop returns `false`. -/
theorem isRunningLoop_refused_fail (env : ℚ → PollOutcome) (maxConn : ℕ)
    (sb mw : ℚ) (ca lt : ℕ) (t : ℚ) (tr : PollTrace) (n : ℕ)
    (henv : env t = PollOutcome.connectionRefused) (hc : maxConn < ca + 1) :
    isRunningLoop env maxConn sb mw ca lt t tr (n + 1) =
      some (false, { tr with polls := tr.polls + 1,
                             refusedPolls := tr.refusedPolls + 1 }) := by
  simp [isRunningLoop, henv, hc]

/-- A connection-refused poll within budget: the counter is incremented and
the loop sleeps `sleep_time_between_attempts` and retries. -/
theorem isRunningLoop_refused_retry (env : ℚ → PollOutcome) (maxConn : ℕ)
    (sb mw : ℚ) (ca lt : ℕ) (t : ℚ) (tr : PollTrace) (n : ℕ)
    (henv : env t = PollOutcome.connectionRefused) (hc : ca + 1 ≤ maxConn) :
    isRunningLoop env maxConn sb mw ca lt t tr (n + 1) =
      isRunningLoop env maxConn sb mw (ca + 1) lt (t + sb)
        { tr with polls := tr.polls + 1, refusedPolls := tr.refusedPolls + 1,
                  betweenSleeps := tr.betweenSleeps + 1 } n := by
  simp [isRunningLoop, henv, Nat.not_lt.mpr hc]

/-- A 503 poll with the loading budget exhausted: the loop returns `false`
at once (no sleep of either kind). -/
theorem isRunningLoop_503_fail (env : ℚ → PollOutcome) (maxConn : ℕ)
    (sb mw : ℚ) (ca lt : ℕ) (t : ℚ) (tr : PollTrace) (n : ℕ)
    (henv : env t = PollOutcome.status 503) (hc : mw < (lt : ℚ)) :
    isRunningLoop env maxConn sb mw ca lt t tr (n + 1) =
      some (false, { tr with polls := tr.polls + 1,
                             loadingPolls := tr.loadingPolls + 1 }) := by
  simp [isRunningLoop, henv, hc]

/-- A 503 poll within the loading budget: one 1-second sleep, the elapsed
loading counter advances by exactly 1 and the loop `continue`s — in
particular `betweenSleeps` is NOT incremented. -/
theorem isRunningLoop_503_retry (env : ℚ → PollOutcome) (maxConn : ℕ)
    (sb mw : ℚ) (ca lt : ℕ) (t : ℚ) (tr : PollTrace) (n : ℕ)
    (henv : env t = PollOutcome.status 503) (hc : (lt : ℚ) ≤ mw) :
    isRunningLoop env maxConn sb mw ca lt t tr (n + 1) =
      isRunningLoop env maxConn sb mw ca (lt + 1) (t + 1)
        { tr with polls := tr.polls + 1, loadingPolls := tr.loadingPolls + 1,
                  loadingSleeps := tr.loadingSleeps + 1 } n := by
  simp [isRunningLoop, henv, not_lt.mpr hc]

/-- A 200 poll: terminal success. -/
theorem isRunningLoop_200 (env : ℚ → PollOutcome) (maxConn : ℕ)
    (sb mw : ℚ) (ca lt : ℕ) (t : ℚ) (tr : PollTrace) (n : ℕ)
    (henv : env t = PollOutcome.status 200) :
    isRunningLoop env maxConn sb mw ca lt t tr (n + 1) =
      some (true, { tr with polls := tr.polls + 1 }) := by
  simp [isRunningLoop, henv]

/-- Any other status code: terminal failure, no retry. -/
theorem isRunningLoop_other (env : ℚ → PollOutcome) (maxConn : ℕ)
    (sb mw : ℚ) (ca lt : ℕ) (t : ℚ) (tr : PollTrace) (n : ℕ) (code : ℕ)
    (henv : env t = PollOutcome.status code) (h503 : code ≠ 503)
    (h200 : code ≠ 200) :
    isRunningLoop env maxConn sb mw ca lt t tr (n + 1) =
      some (false, { tr with polls := tr.polls + 1 }) := by
  simp [isRunningLoop, henv, h503, h200]

/-! ## Helper lemmas -/

/-- When the readiness check comes back `False`, `start` stops the
just-spawned process (clearing `self.process`) and raises
`ServerStartupError`. -/
theorem start_of_false (s : LlamaServer) (pid : ℕ) (env : ℚ → PollOutcome)
    (fuel : ℕ) (tr : PollTrace)
    (h : is_running (some pid) env 10 (1 / 100) 60 fuel = some (false, tr)) :
    LlamaServer.start s pid env fuel =
      some (StartOutcome.serverStartupError { s with process := none }) := by
  simp only [LlamaServer.start, h, LlamaServer.stop]

/-- Against an endpoint that always refuses the connection, the loop
returns `false` after exhausting the attempt budget, having polled
`maxConn + 1 - ca` more times with one between-attempts sleep per
non-terminal iteration. -/
theorem loop_refused_spec (maxConn : ℕ) (sb mw : ℚ) :
    ∀ (fuel ca lt : ℕ) (t : ℚ) (tr : PollTrace), ca ≤ maxConn →
    maxConn + 1 - ca ≤ fuel →
    isRunningLoop envRefused maxConn sb mw ca lt t tr fuel =
      some (false,
        { tr with polls := tr.polls + (maxConn + 1 - ca),
                  refusedPolls := tr.refusedPolls + (maxConn + 1 - ca),
                  betweenSleeps := tr.betweenSleeps + (maxConn - ca) }) := by
  intro fuel
  induction fuel with
  | zero => intro ca lt t tr hca hf; omega
  | succ n ih =>
    intro ca lt t tr hca hf
    by_cases hc : maxConn < ca + 1
    · rw [isRunningLoop_refused_fail envRefused maxConn sb mw ca lt t tr n
        rfl hc]
      have h1 : maxConn + 1 - ca = 1 := by omega
      have h2 : maxConn - ca = 0 := by omega
      simp [h1, h2]
    · have hc1 : ca + 1 ≤ maxConn := by omega
      rw [isRunningLoop_refused_retry envRefused maxConn sb mw ca lt t tr n
        rfl hc1]
      rw [ih (ca + 1) lt (t + sb) _ (by omega) (by omega)]
      simp only [Option.some.injEq, Prod.mk.injEq, PollTrace.mk.injEq]
      exact ⟨trivial, by omega, by omega, trivial, by omega, trivial⟩

/-! ## C1 -/

/-- C1: for every handle whose `start()` spawns a process and whose
readiness check then returns `False`, `start()` raises
`ServerStartupError` and, before raising, performs `stop()`, so the
resulting handle state has `process = None`: a failed start never leaves
the handle owning a process. -/
theorem start_failure_raises_and_clears (s : LlamaServer) (pid : ℕ)
    (env : ℚ → PollOutcome) (fuel : ℕ) (tr : PollTrace)
    (h : is_running (some pid) env 10 (1 / 100) 60 fuel = some (false, tr)) :
    LlamaServer.start s pid env fuel =
      some (StartOutcome.serverStartupError { s with process := none }) ∧
    ({ s with process := none } : LlamaServer).process = none :=
  ⟨start_of_false s pid env fuel tr h, rfl⟩

/-- An endpoint whose health URL answers 404 at once. -/
def env404 : ℚ → PollOutcome := fun _ => PollOutcome.status 404

/-- Witness for C1 at a concrete handle and endpoint. -/
theorem start_failure_raises_and_clears_witness :
    LlamaServer.start (LlamaServer.init "srv" "model.gguf" 8080 true) 7
        env404 1 =
      some (StartOutcome.serverStartupError
        { LlamaServer.init "srv" "model.gguf" 8080 true with process := none }) :=
  (start_failure_raises_and_clears (LlamaServer.init "srv" "model.gguf" 8080 true)
    7 env404 1 ⟨1, 0, 0, 0, 0⟩ rfl).1

/-! ## C2 -/

/-- C2 (code bug): the claim says `stop()` on a handle owning no process is
a no-op and a second `stop()` in a row raises nothing, but the code runs
`self.process.terminate()` unconditionally, so with `process = None` it
raises `AttributeError`; in particular after a successful `stop()` (which
clears `process`) a second `stop()` raises. -/
theorem stop_without_process_raises (s : LlamaServer) (h : s.process = none) :
    s.stop = Except.error PyError.attributeError ∧
    ∀ pid : ℕ,
      ({ s with process := some pid } : LlamaServer).stop =
        Except.ok { s with process := none } ∧
      ({ s with process := none } : LlamaServer).stop =
        Except.error PyError.attributeError := by
  refine ⟨?_, fun pid => ⟨rfl, rfl⟩⟩
  simp only [LlamaServer.stop, h]

/-- Witness for C2 at a freshly constructed handle (which owns no
process). -/
theorem stop_without_process_raises_witness :
    (LlamaServer.init "srv" "model.gguf" 8080 true).stop =
      Except.error PyError.attributeError :=
  (stop_without_process_raises (LlamaServer.init "srv" "model.gguf" 8080 true)
    rfl).1

/-! ## C3 -/

/-- C3: the launch command is a pure, deterministic function of the
descriptor — equal descriptors yield identical sequences — and equals
`[executablePath, "-m", modelPath]` when `useGpu` is false, with
`["-ngl", "1000"]` appended at the end when `useGpu` is true. -/
theorem buildCommand_pure_and_shape (d d2 : StartupDescriptor) (h : d = d2) :
    buildCommand d = buildCommand d2 ∧
    (d.useGpu = false →
      buildCommand d = [d.executablePath, "-m", d.modelPath]) ∧
    (d.useGpu = true →
      buildCommand d =
        [d.executablePath, "-m", d.modelPath] ++ ["-ngl", "1000"]) := by
  subst h
  refine ⟨rfl, fun hg => ?_, fun hg => ?_⟩ <;>
    simp [buildCommand, LlamaServer.init, hg]

/-- Witness for C3 at a concrete descriptor. -/
theorem buildCommand_pure_and_shape_witness :
    buildCommand ⟨"srv", "model.gguf", 8080, true⟩ =
      ["srv", "-m", "model.gguf"] ++ ["-ngl", "1000"] :=
  (buildCommand_pure_and_shape ⟨"srv", "model.gguf", 8080, true⟩
    ⟨"srv", "model.gguf", 8080, true⟩ rfl).2.2 rfl

/-! ## C4 -/

/-- C4: on a handle whose process reference is `None`, `is_running` (with
any parameter values, any endpoint behaviour, any fuel) returns `false`
with the empty trace — in particular zero HTTP requests are issued. -/
theorem is_running_no_process_false (env : ℚ → PollOutcome) (maxConn : ℕ)
    (sb mw : ℚ) (fuel : ℕ) :
    is_running none env maxConn sb mw fuel = some (false, PollTrace.empty) ∧
    PollTrace.empty.polls = 0 :=
  ⟨rfl, rfl⟩

/-! ## Lemmas for the 503-for-N-seconds endpoint -/

/-- Running the loop from elapsed time `k` with `model_loading_time = k`
against `env503 N`: when every remaining whole second `j < N` of loading
stays within the budget (`j ≤ mw`), the loop reaches the 200 at time `N`
and returns `true`. -/
theorem loop503_true (N maxConn : ℕ) (sb mw : ℚ) :
    ∀ (d fuel k ca : ℕ) (tr : PollTrace), k + d = N → d + 1 ≤ fuel →
    (∀ j : ℕ, k ≤ j → j < N → (j : ℚ) ≤ mw) →
    (isRunningLoop (env503 N) maxConn sb mw ca k (k : ℚ) tr fuel).map
      Prod.fst = some true := by
  intro d
  induction d with
  | zero =>
    intro fuel k ca tr hk hf _
    obtain ⟨m, rfl⟩ : ∃ m, fuel = m + 1 := ⟨fuel - 1, by omega⟩
    have hkN : k = N := by omega
    have henv : env503 N (k : ℚ) = PollOutcome.status 200 := by
      subst hkN
      simp [env503]
    rw [isRunningLoop_200 (env503 N) maxConn sb mw ca k (k : ℚ) tr m henv]
    simp
  | succ d ih =>
    intro fuel k ca tr hk hf hj
    obtain ⟨m, rfl⟩ : ∃ m, fuel = m + 1 := ⟨fuel - 1, by omega⟩
    have hkN : k < N := by omega
    have henv : env503 N (k : ℚ) = PollOutcome.status 503 := by
      simp only [env503, if_pos (by exact_mod_cast hkN : (k : ℚ) < (N : ℚ))]
    have hle : (k : ℚ) ≤ mw := hj k le_rfl hkN
    rw [isRunningLoop_503_retry (env503 N) maxConn sb mw ca k (k : ℚ) tr m
      henv hle]
    have hcast : (k : ℚ) + 1 = ((k + 1 : ℕ) : ℚ) := by push_cast; ring
    rw [hcast]
    exact ih m (k + 1) ca _ (by omega) (by omega)
      (fun j h1 h2 => hj j (by omega) h2)

/-- Running the loop from elapsed time `k` with `model_loading_time = k`
against `env503 N`: when the budget is below `N - 1`, some remaining 503
poll finds the accumulated loading time above `mw` and the loop returns
`false`. -/
theorem loop503_false (N maxConn : ℕ) (sb mw : ℚ) :
    ∀ (d fuel k ca : ℕ) (tr : PollTrace), k + d + 1 = N → d + 1 ≤ fuel →
    mw < (N : ℚ) - 1 →
    (isRunningLoop (env503 N) maxConn sb mw ca k (k : ℚ) tr fuel).map
      Prod.fst = some false := by
  intro d
  induction d with
  | zero =>
    intro fuel k ca tr hk hf hmw
    obtain ⟨m, rfl⟩ : ∃ m, fuel = m + 1 := ⟨fuel - 1, by omega⟩
    have hkN : k < N := by omega
    have henv : env503 N (k : ℚ) = PollOutcome.status 503 := by
      simp only [env503, if_pos (by exact_mod_cast hkN : (k : ℚ) < (N : ℚ))]
    have hflt : mw < (k : ℚ) := by
      have hN1 : k + 1 = N := by omega
      have hkq : (k : ℚ) + 1 = (N : ℚ) := by exact_mod_cast hN1
      linarith
    rw [isRunningLoop_503_fail (env503 N) maxConn sb mw ca k (k : ℚ) tr m
      henv hflt]
    simp
  | succ d ih =>
    intro fuel k ca tr hk hf hmw
    obtain ⟨m, rfl⟩ : ∃ m, fuel = m + 1 := ⟨fuel - 1, by omega⟩
    have hkN : k < N := by omega
    have henv : env503 N (k : ℚ) = PollOutcome.status 503 := by
      simp only [env503, if_pos (by exact_mod_cast hkN : (k : ℚ) < (N : ℚ))]
    by_cases hmk : mw < (k : ℚ)
    · rw [isRunningLoop_503_fail (env503 N) maxConn sb mw ca k (k : ℚ) tr m
        henv hmk]
      simp
    · push_neg at hmk
      rw [isRunningLoop_503_retry (env503 N) maxConn sb mw ca k (k : ℚ) tr m
        henv hmk]
      have hcast : (k : ℚ) + 1 = ((k + 1 : ℕ) : ℚ) := by push_cast; ring
      rw [hcast]
      exact ih m (k + 1) ca _ (by omega) (by omega) hmw

/-! ## C5 -/

/-- C5 counterexample: the claim says that with the endpoint answering 503
for the first `N` whole seconds and 200 thereafter, `maxModelLoadWait < N`
makes `is_running` return `false`; but with `N = 2` and
`max_wait_time_for_model_loading = 1 < 2` the code returns `true`, because
the failure test `model_loading_time > max_wait` is checked before the
increment and the largest value it ever sees here is `N - 1 = 1`, which is
not `> 1`. -/
theorem is_running_503_off_by_one_cx :
    (1 : ℚ) < ((2 : ℕ) : ℚ) ∧
    (is_running (some 0) (env503 2) 10 (1 / 100) 1 10).map Prod.fst =
      some true := by
  constructor
  · norm_num
  · show (isRunningLoop (env503 2) 10 (1 / 100) 1 0 0 0
      PollTrace.empty 10).map Prod.fst = some true
    rw [isRunningLoop_503_retry (env503 2) 10 (1 / 100) 1 0 0 0
      PollTrace.empty 9 (by norm_num [env503]) (by norm_num)]
    rw [isRunningLoop_503_retry (env503 2) 10 (1 / 100) 1 0 1 (0 + 1) _ 8
      (by norm_num [env503]) (by norm_num)]
    rw [isRunningLoop_200 (env503 2) 10 (1 / 100) 1 0 2 (0 + 1 + 1) _ 7
      (by norm_num [env503])]
    simp

/-- C5 (amended): against an endpoint answering 503 for the first `N ≥ 1`
whole seconds of polling and 200 thereafter, `is_running` returns `true`
when `maxModelLoadWait ≥ N - 1` and `false` (a plain return, no
exception) when `maxModelLoadWait < N - 1`; each in-budget 503 iteration
performs exactly one 1-second sleep and advances the elapsed-loading
counter by exactly 1, and the loop fails exactly at a 503 poll whose
accumulated loading time exceeds `maxModelLoadWait`. -/
theorem is_running_503_threshold (N maxConn pid fuel : ℕ) (sb mw : ℚ)
    (hN : 1 ≤ N) (hfuel : N + 1 ≤ fuel) :
    ((N : ℚ) - 1 ≤ mw →
      (is_running (some pid) (env503 N) maxConn sb mw fuel).map Prod.fst =
        some true) ∧
    (mw < (N : ℚ) - 1 →
      (is_running (some pid) (env503 N) maxConn sb mw fuel).map Prod.fst =
        some false) ∧
    (∀ (ca lt : ℕ) (t : ℚ) (tr : PollTrace) (n : ℕ),
      env503 N t = PollOutcome.status 503 → (lt : ℚ) ≤ mw →
      isRunningLoop (env503 N) maxConn sb mw ca lt t tr (n + 1) =
        isRunningLoop (env503 N) maxConn sb mw ca (lt + 1) (t + 1)
          { tr with polls := tr.polls + 1, loadingPolls := tr.loadingPolls + 1,
                    loadingSleeps := tr.loadingSleeps + 1 } n) ∧
    (∀ (ca lt : ℕ) (t : ℚ) (tr : PollTrace) (n : ℕ),
      env503 N t = PollOutcome.status 503 → mw < (lt : ℚ) →
      isRunningLoop (env503 N) maxConn sb mw ca lt t tr (n + 1) =
        some (false, { tr with polls := tr.polls + 1,
                               loadingPolls := tr.loadingPolls + 1 })) := by
  refine ⟨?_, ?_, ?_, ?_⟩
  · intro hge
    have h0 : ((0 : ℕ) : ℚ) = (0 : ℚ) := by norm_num
    have := loop503_true N maxConn sb mw N fuel 0 0 PollTrace.empty
      (by omega) (by omega) ?_
    · simpa [is_running, h0] using this
    · intro j _ hj
      have hj1 : (j : ℚ) + 1 ≤ (N : ℚ) := by exact_mod_cast hj
      linarith
  · intro hlt
    have h0 : ((0 : ℕ) : ℚ) = (0 : ℚ) := by norm_num
    have := loop503_false N maxConn sb mw (N - 1) fuel 0 0 PollTrace.empty
      (by omega) (by omega) hlt
    simpa [is_running, h0] using this
  · exact fun ca lt t tr n henv hle =>
      isRunningLoop_503_retry (env503 N) maxConn sb mw ca lt t tr n henv hle
  · exact fun ca lt t tr n henv hgt =>
      isRunningLoop_503_fail (env503 N) maxConn sb mw ca lt t tr n henv hgt

/-- Witness for C5 (amended) at `N = 2`, `maxModelLoadWait = 5`. -/
theorem is_running_503_threshold_witness :
    (is_running (some 0) (env503 2) 10 (1 / 100) 5 3).map Prod.fst =
      some true :=
  (is_running_503_threshold 2 10 0 3 (1 / 100) 5 (by norm_num)
    (by norm_num)).1 (by norm_num)

/-! ## C6 -/

/-- C6: connection-refused outcomes never raise out of `is_running`: each
one increments the attempt counter, the loop returns a plain `false`
exactly when the counter exceeds `maxConnectionAttempts` (first conjunct,
both directions of the threshold); against an always-refusing endpoint
the call returns `false` after `maxConn + 1` refused polls (second
conjunct); and only `start()` escalates a `false` readiness result into
`ServerStartupError` (third conjunct). -/
theorem connection_refused_bounded_retry (env : ℚ → PollOutcome)
    (maxConn pid fuel : ℕ) (sb mw : ℚ) (hf : maxConn + 1 ≤ fuel) :
    (∀ (ca lt : ℕ) (t : ℚ) (tr : PollTrace) (n : ℕ),
      env t = PollOutcome.connectionRefused →
      (maxConn < ca + 1 →
        isRunningLoop env maxConn sb mw ca lt t tr (n + 1) =
          some (false, { tr with polls := tr.polls + 1,
                                 refusedPolls := tr.refusedPolls + 1 })) ∧
      (ca + 1 ≤ maxConn →
        isRunningLoop env maxConn sb mw ca lt t tr (n + 1) =
          isRunningLoop env maxConn sb mw (ca + 1) lt (t + sb)
            { tr with polls := tr.polls + 1,
                      refusedPolls := tr.refusedPolls + 1,
                      betweenSleeps := tr.betweenSleeps + 1 } n)) ∧
    (is_running (some pid) envRefused maxConn sb mw fuel =
      some (false, { polls := maxConn + 1, refusedPolls := maxConn + 1,
                     loadingPolls := 0, betweenSleeps := maxConn,
                     loadingSleeps := 0 })) ∧
    (∀ (s : LlamaServer) (tr : PollTrace) (f : ℕ),
      is_running (some pid) env 10 (1 / 100) 60 f = some (false, tr) →
      LlamaServer.start s pid env f =
        some (StartOutcome.serverStartupError { s with process := none })) := by
  refine ⟨?_, ?_, ?_⟩
  · intro ca lt t tr n henv
    exact ⟨fun hc => isRunningLoop_refused_fail env maxConn sb mw ca lt t tr n
        henv hc,
      fun hc => isRunningLoop_refused_retry env maxConn sb mw ca lt t tr n
        henv hc⟩
  · have := loop_refused_spec maxConn sb mw fuel 0 0 0 PollTrace.empty
      (by omega) (by omega)
    simpa [is_running, PollTrace.empty] using this
  · exact fun s tr f h => start_of_false s pid env f tr h

/-- Witness for C6 at `maxConn = 0`. -/
theorem connection_refused_bounded_retry_witness :
    is_running (some 0) envRefused 0 0 0 1 =
      some (false, { polls := 1, refusedPolls := 1, loadingPolls := 0,
                     betweenSleeps := 0, loadingSleeps := 0 }) :=
  (connection_refused_bounded_retry envRefused 0 0 1 0 0 (by norm_num)).2.1

/-! ## C7 -/

/-- C7 counterexample: the claim says every non-terminal iteration applies
the `sleep_time_between_attempts` delay exactly once regardless of branch,
a 503 iteration included.  Against an endpoint answering 503 once and then
200, the run below performs one non-terminal 503 iteration (one 1-second
loading sleep, `loadingSleeps = 1`) yet zero between-attempts sleeps
(`betweenSleeps = 0`): the 503 branch reaches `continue` before the
`time.sleep(sleep_time_between_attempts)` at the bottom of the loop. -/
theorem sleep_between_skipped_on_503_cx :
    is_running (some 0) (env503 1) 10 (1 / 100) 60 5 =
      some (true, { polls := 2, refusedPolls := 0, loadingPolls := 1,
                    betweenSleeps := 0, loadingSleeps := 1 }) ∧
    (1 : ℕ) ≠ 0 := by
  constructor
  · show isRunningLoop (env503 1) 10 (1 / 100) 60 0 0 0 PollTrace.empty 5 =
      some (true, { polls := 2, refusedPolls := 0, loadingPolls := 1,
                    betweenSleeps := 0, loadingSleeps := 1 })
    rw [isRunningLoop_503_retry (env503 1) 10 (1 / 100) 60 0 0 0
      PollTrace.empty 4 (by norm_num [env503]) (by norm_num)]
    rw [isRunningLoop_200 (env503 1) 10 (1 / 100) 60 0 1 (0 + 1) _ 3
      (by norm_num [env503])]
    rfl
  · norm_num

/-- C7 (amended): the `sleep_time_between_attempts` delay is applied
exactly once per non-terminal connection-refused iteration, and not at all
in a non-terminal 503 iteration, which performs only its 1-second
model-loading sleep and skips the between-attempts sleep via `continue`. -/
theorem sleep_between_per_branch (env : ℚ → PollOutcome) (maxConn : ℕ)
    (sb mw : ℚ) :
    (∀ (ca lt : ℕ) (t : ℚ) (tr : PollTrace) (n : ℕ),
      env t = PollOutcome.connectionRefused → ca + 1 ≤ maxConn →
      isRunningLoop env maxConn sb mw ca lt t tr (n + 1) =
        isRunningLoop env maxConn sb mw (ca + 1) lt (t + sb)
          { tr with polls := tr.polls + 1,
                    refusedPolls := tr.refusedPolls + 1,
                    betweenSleeps := tr.betweenSleeps + 1 } n) ∧
    (∀ (ca lt : ℕ) (t : ℚ) (tr : PollTrace) (n : ℕ),
      env t = PollOutcome.status 503 → (lt : ℚ) ≤ mw →
      isRunningLoop env maxConn sb mw ca lt t tr (n + 1) =
        isRunningLoop env maxConn sb mw ca (lt + 1) (t + 1)
          { tr with polls := tr.polls + 1, loadingPolls := tr.loadingPolls + 1,
                    loadingSleeps := tr.loadingSleeps + 1 } n) :=
  ⟨fun ca lt t tr n henv hc =>
      isRunningLoop_refused_retry env maxConn sb mw ca lt t tr n henv hc,
    fun ca lt t tr n henv hle =>
      isRunningLoop_503_retry env maxConn sb mw ca lt t tr n henv hle⟩

/-- Witness for C7 (amended) at a concrete refused iteration. -/
theorem sleep_between_per_branch_witness :
    isRunningLoop envRefused 5 0 0 0 0 0 PollTrace.empty 3 =
      isRunningLoop envRefused 5 0 0 1 0 0
        { polls := 1, refusedPolls := 1, loadingPolls := 0,
          betweenSleeps := 1, loadingSleeps := 0 } 2 :=
  (sleep_between_per_branch envRefused 5 0 0).1 0 0 0 PollTrace.empty 2 rfl
    (by norm_num)

/-! ## C8 -/

/-- C8 counterexample: the claim says a non-empty section with a required
field of the wrong type makes the resolver fail with `ConfigError`; but
Python dataclasses do not check field types, so a section carrying an
integer for `llama_cpp_repo_path` and a boolean for `model_path` is
accepted without any error (and the code defines no `ConfigError` at
all). -/
theorem from_yaml_wrong_type_accepted_cx :
    from_yaml (Yaml.map [("LlamaServer",
        Yaml.map [("llama_cpp_repo_path", Yaml.int 5),
                  ("model_path", Yaml.bool true)])]) ["LlamaServer"] =
      Except.ok (some { llama_cpp_repo_path := Yaml.int 5,
                        model_path := Yaml.bool true,
                        port := Yaml.int 8080,
                        use_gpu := Yaml.bool true }) := rfl

/-- C8 (amended): for a non-empty selected section, a missing required
field (`llama_cpp_repo_path` or `model_path`) makes the resolver raise
`TypeError` — the code defines no `ConfigError`, and field values of the
wrong type are accepted unchecked; for a well-formed section with `port`
and `use_gpu` absent, the declared defaults `8080` and `True` apply. -/
theorem from_yaml_typeerror_and_defaults (k : String)
    (es : List (String × Yaml)) (hne : es.isEmpty = false) :
    (es.lookup "llama_cpp_repo_path" = none ∨ es.lookup "model_path" = none →
      from_yaml (Yaml.map [(k, Yaml.map es)]) [k] =
        Except.error PyError.typeError) ∧
    (∀ r m : Yaml, (∀ p ∈ es, llamaConfigFields.contains p.1 = true) →
      es.lookup "llama_cpp_repo_path" = some r →
      es.lookup "model_path" = some m →
      es.lookup "port" = none → es.lookup "use_gpu" = none →
      from_yaml (Yaml.map [(k, Yaml.map es)]) [k] =
        Except.ok (some { llama_cpp_repo_path := r, model_path := m,
                          port := Yaml.int 8080,
                          use_gpu := Yaml.bool true })) := by
  have hdes : Yaml.descend (Yaml.map [(k, Yaml.map es)]) [k] =
      Except.ok (Yaml.map es) := by
    simp [Yaml.descend, Yaml.get, List.lookup]
  have hfy : from_yaml (Yaml.map [(k, Yaml.map es)]) [k] =
      match mkLlamaServerConfig es with
      | Except.error e => Except.error e
      | Except.ok cfg => Except.ok (some cfg) := by
    rw [from_yaml, hdes]
    simp [Yaml.truthy, hne]
  constructor
  · intro hmiss
    rw [hfy]
    by_cases hany : es.any (fun p => !(llamaConfigFields.contains p.1))
    · rw [mkLlamaServerConfig, if_pos hany]
    · rw [mkLlamaServerConfig, if_neg hany]
      rcases hmiss with hmiss | hmiss
      · rw [hmiss]
      · rw [hmiss]
        cases es.lookup "llama_cpp_repo_path" <;> rfl
  · intro r m hall hr hm hp hg
    rw [hfy]
    have hany : es.any (fun p => !(llamaConfigFields.contains p.1)) = false := by
      rw [List.any_eq_false]
      intro p hp2
      have hc := hall p hp2
      simp_all
    rw [mkLlamaServerConfig, if_neg (by rw [hany]; exact Bool.false_ne_true)]
    rw [hr, hm, hp, hg]
    rfl

/-- Witness for C8 (amended) at a concrete well-formed section. -/
theorem from_yaml_typeerror_and_defaults_witness :
    from_yaml (Yaml.map [("LlamaServer",
        Yaml.map [("llama_cpp_repo_path", Yaml.str "/repo"),
                  ("model_path", Yaml.str "/model.gguf")])]) ["LlamaServer"] =
      Except.ok (some { llama_cpp_repo_path := Yaml.str "/repo",
                        model_path := Yaml.str "/model.gguf",
                        port := Yaml.int 8080,
                        use_gpu := Yaml.bool true }) :=
  (from_yaml_typeerror_and_defaults "LlamaServer"
      [("llama_cpp_repo_path", Yaml.str "/repo"),
       ("model_path", Yaml.str "/model.gguf")] rfl).2
    (Yaml.str "/repo") (Yaml.str "/model.gguf") (by decide) rfl rfl rfl rfl

/-! ## C9 -/

/-- C9 counterexample: the claim says the resolver descends every mapping
tree treating each missing key as an empty mapping and never raises; but
when a traversed key holds a non-mapping value and keys remain, the next
`.get` is attribute access on a non-dict and raises `AttributeError`:
already `{"a": 1}` with key sequence `["a", "b"]` errors instead of
returning the absent result. -/
theorem descend_non_mapping_raises_cx :
    from_yaml (Yaml.map [("a", Yaml.int 1)]) ["a", "b"] =
      Except.error PyError.attributeError := rfl

/-- If every node at which a key is consumed is a mapping, the descent
succeeds. -/
theorem descend_ok_of_mapsAlong (ks : List String) :
    ∀ y : Yaml, Yaml.mapsAlong y ks = true →
    ∃ c : Yaml, Yaml.descend y ks = Except.ok c := by
  induction ks with
  | nil => exact fun y _ => ⟨y, rfl⟩
  | cons k ks ih =>
    intro y h
    cases y with
    | map es =>
      obtain ⟨c, hc⟩ := ih ((es.lookup k).getD (Yaml.map []))
        (by simpa [Yaml.mapsAlong] using h)
      exact ⟨c, by simp [Yaml.descend, Yaml.get, hc]⟩
    | str s => simp [Yaml.mapsAlong] at h
    | int n => simp [Yaml.mapsAlong] at h
    | bool b => simp [Yaml.mapsAlong] at h
    | null => simp [Yaml.mapsAlong] at h

/-- C9 (amended): at a mapping node a missing key yields the empty mapping
(first conjunct); when every node at which a key is consumed is a mapping,
the descent never raises (second conjunct), and an empty final mapping
makes the resolver return the absent result `None`, not an error (third
conjunct).  When the descent crosses a non-mapping value, however, the
code raises `AttributeError` instead. -/
theorem descend_mapping_nodes_safe (y : Yaml) (ks : List String)
    (h : Yaml.mapsAlong y ks = true) :
    (∀ (es : List (String × Yaml)) (k : String), es.lookup k = none →
      Yaml.get (Yaml.map es) k = Except.ok (Yaml.map [])) ∧
    (∃ c : Yaml, Yaml.descend y ks = Except.ok c) ∧
    (Yaml.descend y ks = Except.ok (Yaml.map []) →
      from_yaml y ks = Except.ok none) := by
  refine ⟨?_, descend_ok_of_mapsAlong ks y h, ?_⟩
  · intro es k hl
    simp [Yaml.get, hl]
  · intro hd
    rw [from_yaml, hd]
    simp [Yaml.truthy]

/-- Witness for C9 (amended): resolving an empty section yields the
absent result, no error. -/
theorem descend_mapping_nodes_safe_witness :
    from_yaml (Yaml.map [("LlamaServer", Yaml.map [])]) ["LlamaServer"] =
      Except.ok none :=
  (descend_mapping_nodes_safe (Yaml.map [("LlamaServer", Yaml.map [])])
    ["LlamaServer"] rfl).2.2 rfl

/-! ## C10 -/

/-- Invariant for termination of the polling loop: from a state with
`ca ≤ maxConn` and `lt ≤ ⌊mw⌋ + 1`, enough fuel makes the loop return,
with the remaining refused polls bounded by the remaining attempt budget,
the remaining 503 polls bounded by the remaining loading budget, and at
most one extra terminal (200/other) poll. -/
theorem loop_total (env : ℚ → PollOutcome) (maxConn : ℕ) (sb mw : ℚ)
    (hmw : 0 ≤ mw) :
    ∀ (fuel ca lt : ℕ) (t : ℚ) (tr : PollTrace), ca ≤ maxConn →
    lt ≤ (⌊mw⌋).toNat + 1 →
    (maxConn - ca) + ((⌊mw⌋).toNat + 1 - lt) + 1 ≤ fuel →
    ∃ (b : Bool) (tr2 : PollTrace),
      isRunningLoop env maxConn sb mw ca lt t tr fuel = some (b, tr2) ∧
      tr2.refusedPolls ≤ tr.refusedPolls + (maxConn - ca) + 1 ∧
      tr2.loadingPolls ≤ tr.loadingPolls + ((⌊mw⌋).toNat + 1 - lt) + 1 ∧
      tr2.polls ≤ tr.polls + ((maxConn - ca) + 1) +
        (((⌊mw⌋).toNat + 1 - lt) + 1) + 1 := by
  intro fuel
  induction fuel with
  | zero => intro ca lt t tr hca hlt hf; omega
  | succ n ih =>
    intro ca lt t tr hca hlt hf
    cases henv : env t with
    | connectionRefused =>
      by_cases hc : maxConn < ca + 1
      · rw [isRunningLoop_refused_fail env maxConn sb mw ca lt t tr n henv hc]
        refine ⟨false, _, rfl, ?_, ?_, ?_⟩
        · show tr.refusedPolls + 1 ≤ tr.refusedPolls + (maxConn - ca) + 1
          omega
        · show tr.loadingPolls ≤
            tr.loadingPolls + ((⌊mw⌋).toNat + 1 - lt) + 1
          omega
        · show tr.polls + 1 ≤ tr.polls + ((maxConn - ca) + 1) +
            (((⌊mw⌋).toNat + 1 - lt) + 1) + 1
          omega
      · push_neg at hc
        rw [isRunningLoop_refused_retry env maxConn sb mw ca lt t tr n
          henv hc]
        obtain ⟨b, tr2, heq, h1, h2, h3⟩ := ih (ca + 1) lt (t + sb) _
          (by omega) hlt (by omega)
        refine ⟨b, tr2, heq, ?_, ?_, ?_⟩
        · have h1x : tr2.refusedPolls ≤
              tr.refusedPolls + 1 + (maxConn - (ca + 1)) + 1 := h1
          omega
        · have h2x : tr2.loadingPolls ≤
              tr.loadingPolls + ((⌊mw⌋).toNat + 1 - lt) + 1 := h2
          omega
        · have h3x : tr2.polls ≤ tr.polls + 1 + ((maxConn - (ca + 1)) + 1) +
              (((⌊mw⌋).toNat + 1 - lt) + 1) + 1 := h3
          omega
    | status code =>
      by_cases h503 : code = 503
      · subst h503
        by_cases hfail : mw < (lt : ℚ)
        · rw [isRunningLoop_503_fail env maxConn sb mw ca lt t tr n
            henv hfail]
          refine ⟨false, _, rfl, ?_, ?_, ?_⟩
          · show tr.refusedPolls ≤ tr.refusedPolls + (maxConn - ca) + 1
            omega
          · show tr.loadingPolls + 1 ≤
              tr.loadingPolls + ((⌊mw⌋).toNat + 1 - lt) + 1
            omega
          · show tr.polls + 1 ≤ tr.polls + ((maxConn - ca) + 1) +
              (((⌊mw⌋).toNat + 1 - lt) + 1) + 1
            omega
        · push_neg at hfail
          have hltF : lt ≤ (⌊mw⌋).toNat := by
            have hz : (lt : ℤ) ≤ ⌊mw⌋ :=
              Int.le_floor.mpr (by exact_mod_cast hfail)
            omega
          rw [isRunningLoop_503_retry env maxConn sb mw ca lt t tr n
            henv hfail]
          obtain ⟨b, tr2, heq, h1, h2, h3⟩ := ih ca (lt + 1) (t + 1) _
            hca (by omega) (by omega)
          refine ⟨b, tr2, heq, ?_, ?_, ?_⟩
          · have h1x : tr2.refusedPolls ≤
                tr.refusedPolls + (maxConn - ca) + 1 := h1
            omega
          · have h2x : tr2.loadingPolls ≤
                tr.loadingPolls + 1 + ((⌊mw⌋).toNat + 1 - (lt + 1)) + 1 := h2
            omega
          · have h3x : tr2.polls ≤ tr.polls + 1 + ((maxConn - ca) + 1) +
                (((⌊mw⌋).toNat + 1 - (lt + 1)) + 1) + 1 := h3
            omega
      · by_cases h200 : code = 200
        · subst h200
          rw [isRunningLoop_200 env maxConn sb mw ca lt t tr n henv]
          refine ⟨true, _, rfl, ?_, ?_, ?_⟩
          · show tr.refusedPolls ≤ tr.refusedPolls + (maxConn - ca) + 1
            omega
          · show tr.loadingPolls ≤
              tr.loadingPolls + ((⌊mw⌋).toNat + 1 - lt) + 1
            omega
          · show tr.polls + 1 ≤ tr.polls + ((maxConn - ca) + 1) +
              (((⌊mw⌋).toNat + 1 - lt) + 1) + 1
            omega
        · rw [isRunningLoop_other env maxConn sb mw ca lt t tr n code
            henv h503 h200]
          refine ⟨false, _, rfl, ?_, ?_, ?_⟩
          · show tr.refusedPolls ≤ tr.refusedPolls + (maxConn - ca) + 1
            omega
          · show tr.loadingPolls ≤
              tr.loadingPolls + ((⌊mw⌋).toNat + 1 - lt) + 1
            omega
          · show tr.polls + 1 ≤ tr.polls + ((maxConn - ca) + 1) +
              (((⌊mw⌋).toNat + 1 - lt) + 1) + 1
            omega

/-- C10: for every endpoint behaviour, `is_running` on a handle owning a
process terminates once given fuel for
`(maxConn + 1) + (floor(mw) + 2) + 1` iterations: it returns a result
after at most `maxConn + 1` connection-refused polls, at most
`floor(mw) + 2` HTTP-503 polls, and at most one terminal poll, because
both counters only ever increase and each is checked against its bound. -/
theorem is_running_terminates_bounded (env : ℚ → PollOutcome)
    (maxConn pid fuel : ℕ) (sb mw : ℚ) (hmw : 0 ≤ mw)
    (hfuel : (maxConn + 1) + ((⌊mw⌋).toNat + 2) + 1 ≤ fuel) :
    ∃ (b : Bool) (tr : PollTrace),
      is_running (some pid) env maxConn sb mw fuel = some (b, tr) ∧
      tr.refusedPolls ≤ maxConn + 1 ∧
      tr.loadingPolls ≤ (⌊mw⌋).toNat + 2 ∧
      tr.polls ≤ (maxConn + 1) + ((⌊mw⌋).toNat + 2) + 1 := by
  obtain ⟨b, tr2, heq, h1, h2, h3⟩ := loop_total env maxConn sb mw hmw fuel
    0 0 0 PollTrace.empty (by omega) (by omega) (by omega)
  refine ⟨b, tr2, heq, ?_, ?_, ?_⟩
  · have h1x : tr2.refusedPolls ≤ 0 + (maxConn - 0) + 1 := h1
    omega
  · have h2x : tr2.loadingPolls ≤ 0 + ((⌊mw⌋).toNat + 1 - 0) + 1 := h2
    omega
  · have h3x : tr2.polls ≤ 0 + ((maxConn - 0) + 1) +
        (((⌊mw⌋).toNat + 1 - 0) + 1) + 1 := h3
    omega

/-- Witness for C10 at an endpoint that answers 200 at once. -/
theorem is_running_terminates_bounded_witness :
    ∃ (b : Bool) (tr : PollTrace),
      is_running (some 0) (fun _ => PollOutcome.status 200) 0 0 0 4 =
        some (b, tr) ∧
      tr.refusedPolls ≤ 0 + 1 ∧
      tr.loadingPolls ≤ (⌊(0 : ℚ)⌋).toNat + 2 ∧
      tr.polls ≤ (0 + 1) + ((⌊(0 : ℚ)⌋).toNat + 2) + 1 :=
  is_running_terminates_bounded (fun _ => PollOutcome.status 200) 0 0 4 0 0
    (by norm_num) (by norm_num)
